import Mathlib

/-!
Verification of the headline scoring-and-classification pipeline of the
news-sentiment dashboard (`app.py`).

The embedding models Python floats by rationals (`ℚ`), Python lists by
`List`, Python dicts holding the VADER scores by a `Scores` structure, and
the external VADER analyzer by a function parameter `String → Scores`.
Streamlit UI effects that matter to the claims (warnings, error messages,
metric display) are reflected in explicit return values.
-/

/-- The score bundle returned by `analyzer.polarity_scores(text)`:
fields `pos`, `neu`, `neg` and `compound` of the VADER dict. -/
structure Scores where
  pos : ℚ
  neu : ℚ
  neg : ℚ
  compound : ℚ
deriving DecidableEq

/-- Embedding of `get_sentiment` (app.py lines 44-62).  The VADER analyzer
is an external collaborator and is passed as a function parameter.  Returns
the tuple `(sentiment, scores, emoji, color)` exactly as the source does. -/
def get_sentiment (analyzer : String → Scores) (text : String) :
    String × Scores × String × String :=
  let scores := analyzer text
  let compound := scores.compound
  if compound ≥ 5/100 then
    ("Positive", scores, "😊", "green")
  else if compound ≤ -5/100 then
    ("Negative", scores, "😟", "red")
  else
    ("Neutral", scores, "😐", "gray")

/-- An analyzer returning a fixed compound score with zero pos/neu/neg
components; used to instantiate theorems at concrete compound values. -/
def constAnalyzer (c : ℚ) : String → Scores :=
  fun _ => { pos := 0, neu := 0, neg := 0, compound := c }

lemma get_sentiment_fst (a : String → Scores) (t : String) :
    (get_sentiment a t).1 =
      if (a t).compound ≥ 5/100 then "Positive"
      else if (a t).compound ≤ -5/100 then "Negative"
      else "Neutral" := by
  simp only [get_sentiment]
  split_ifs <;> rfl

lemma get_sentiment_emoji (a : String → Scores) (t : String) :
    (get_sentiment a t).2.2.1 =
      if (a t).compound ≥ 5/100 then "😊"
      else if (a t).compound ≤ -5/100 then "😟"
      else "😐" := by
  simp only [get_sentiment]
  split_ifs <;> rfl

lemma get_sentiment_color (a : String → Scores) (t : String) :
    (get_sentiment a t).2.2.2 =
      if (a t).compound ≥ 5/100 then "green"
      else if (a t).compound ≤ -5/100 then "red"
      else "gray" := by
  simp only [get_sentiment]
  split_ifs <;> rfl

lemma get_sentiment_scores (a : String → Scores) (t : String) :
    (get_sentiment a t).2.1 = a t := by
  simp only [get_sentiment]
  split_ifs <;> rfl

lemma get_sentiment_label_cases (a : String → Scores) (t : String) :
    (get_sentiment a t).1 = "Positive" ∨ (get_sentiment a t).1 = "Negative" ∨
      (get_sentiment a t).1 = "Neutral" := by
  rw [get_sentiment_fst]
  split_ifs <;> simp

lemma get_sentiment_label_iff (a : String → Scores) (t : String) :
    ((get_sentiment a t).1 = "Positive" ↔ (a t).compound ≥ 5/100) ∧
    ((get_sentiment a t).1 = "Negative" ↔ (a t).compound ≤ -5/100) ∧
    ((get_sentiment a t).1 = "Neutral" ↔
      ¬((a t).compound ≥ 5/100) ∧ ¬((a t).compound ≤ -5/100)) := by
  rw [get_sentiment_fst]
  split_ifs with h1 h2
  · refine ⟨by simp [h1], ?_, ?_⟩
    · constructor
      · intro h; exact absurd h (by decide)
      · intro h; exfalso; linarith
    · constructor
      · intro h; exact absurd h (by decide)
      · intro h; exact absurd h1 h.1
  · refine ⟨?_, by simp [h2], ?_⟩
    · constructor
      · intro h; exact absurd h (by decide)
      · intro h; exact absurd h h1
    · constructor
      · intro h; exact absurd h (by decide)
      · intro h; exact absurd h2 h.2
  · refine ⟨?_, ?_, by simp [h1, h2]⟩
    · constructor
      · intro h; exact absurd h (by decide)
      · intro h; exact absurd h h1
    · constructor
      · intro h; exact absurd h (by decide)
      · intro h; exact absurd h h2

/-- C1: for every compound score, the classifier returns Positive iff the
compound is ≥ 0.05, Negative iff it is ≤ -0.05, Neutral otherwise; both
boundaries are inclusive: a compound of exactly 0.05 classifies as Positive
and exactly -0.05 as Negative. -/
theorem classify_threshold_spec :
    (∀ (a : String → Scores) (t : String),
      ((get_sentiment a t).1 = "Positive" ↔ (a t).compound ≥ 5/100) ∧
      ((get_sentiment a t).1 = "Negative" ↔ (a t).compound ≤ -5/100) ∧
      ((get_sentiment a t).1 = "Neutral" ↔
        ¬((a t).compound ≥ 5/100) ∧ ¬((a t).compound ≤ -5/100))) ∧
    (∀ t, (get_sentiment (constAnalyzer (5/100)) t).1 = "Positive") ∧
    (∀ t, (get_sentiment (constAnalyzer (-5/100)) t).1 = "Negative") := by
  refine ⟨get_sentiment_label_iff, ?_, ?_⟩
  · intro t
    exact (get_sentiment_label_iff (constAnalyzer (5/100)) t).1.mpr (le_refl _)
  · intro t
    exact (get_sentiment_label_iff (constAnalyzer (-5/100)) t).2.1.mpr (le_refl _)

/-- C2: the classification step is a pure, total function of the compound
score: any two calls whose score bundles carry the same compound value get
the same label, emoji and color, and every call produces one of the three
labels. -/
theorem classify_pure_total :
    (∀ (a₁ : String → Scores) (t₁ : String) (a₂ : String → Scores) (t₂ : String),
      (a₁ t₁).compound = (a₂ t₂).compound →
        (get_sentiment a₁ t₁).1 = (get_sentiment a₂ t₂).1 ∧
        (get_sentiment a₁ t₁).2.2.1 = (get_sentiment a₂ t₂).2.2.1 ∧
        (get_sentiment a₁ t₁).2.2.2 = (get_sentiment a₂ t₂).2.2.2) ∧
    (∀ (a : String → Scores) (t : String),
      (get_sentiment a t).1 = "Positive" ∨ (get_sentiment a t).1 = "Negative" ∨
        (get_sentiment a t).1 = "Neutral") := by
  constructor
  · intro a₁ t₁ a₂ t₂ hc
    refine ⟨?_, ?_, ?_⟩
    · rw [get_sentiment_fst, get_sentiment_fst, hc]
    · rw [get_sentiment_emoji, get_sentiment_emoji, hc]
    · rw [get_sentiment_color, get_sentiment_color, hc]
  · exact get_sentiment_label_cases

theorem classify_pure_total_witness :
    (get_sentiment (constAnalyzer (3/10)) "x").1 =
      (get_sentiment (fun _ => ({ pos := 1, neu := 0, neg := 0, compound := 3/10 } : Scores)) "y").1 :=
  (classify_pure_total.1 (constAnalyzer (3/10)) "x"
    (fun _ => ({ pos := 1, neu := 0, neg := 0, compound := 3/10 } : Scores)) "y" rfl).1

/-- Whether a character is ASCII whitespace, as Python `str.strip` and
`str.isspace` treat it (space, tab, newline, carriage return, vertical tab,
form feed). -/
def py_isspace (c : Char) : Bool :=
  c = ' ' || c = '\t' || c = '\n' || c = '\r' || c = '\x0b' || c = '\x0c'

/-- Python `str.strip()`: drop leading and trailing whitespace. -/
def py_strip (s : String) : String :=
  String.mk (((s.data.dropWhile py_isspace).reverse.dropWhile py_isspace).reverse)

/-- Helper for `py_split`: accumulates the current field (reversed) while
scanning for newline separators. -/
def splitLinesAux : List Char → List Char → List String
  | [], acc => [String.mk acc.reverse]
  | c :: cs, acc =>
      if c = '\n' then String.mk acc.reverse :: splitLinesAux cs []
      else splitLinesAux cs (c :: acc)

/-- Python `batch_input.split('\n')`: split on every newline, keeping empty
fields (so `"".split('\n') = [""]`). -/
def py_split (s : String) : List String :=
  splitLinesAux s.data []

/-- Embedding of app.py line 178:
`headlines = [h.strip() for h in batch_input.split('\n') if h.strip()]`
(a Python comprehension filters first, then maps; the filter keeps lines
whose stripped form is truthy, i.e. a nonempty string). -/
def batch_headlines (batch_input : String) : List String :=
  ((py_split batch_input).filter (fun h => py_strip h != "")).map py_strip

/-- C5: batch splitting maps a multi-line blob to its lines stripped of
surrounding whitespace, dropping blank or whitespace-only lines and keeping
the order of the rest; in particular `"a\n\nb\n  \nc"` yields exactly
`["a", "b", "c"]`. -/
theorem batch_headlines_spec :
    (∀ s : String, batch_headlines s =
      ((py_split s).map py_strip).filter (fun h => h != "")) ∧
    batch_headlines "a\n\nb\n  \nc" = ["a", "b", "c"] := by
  constructor
  · intro s
    rw [batch_headlines, List.filter_map]
    rfl
  · rfl

/-- A row of the batch-analysis results table (app.py lines 187-195). -/
structure BatchRow where
  Headline : String
  Sentiment : String
  Emoji : String
  Compound : ℚ
  Positive : ℚ
  Neutral : ℚ
  Negative : ℚ
deriving DecidableEq

/-- The `results` list built by the batch-analysis loop (app.py lines
184-195): one row per headline, all fields taken from one `get_sentiment`
call. -/
def batch_results (analyzer : String → Scores) (headlines : List String) :
    List BatchRow :=
  headlines.map (fun headline =>
    let res := get_sentiment analyzer headline
    { Headline := headline
      Sentiment := res.1
      Emoji := res.2.2.1
      Compound := res.2.1.compound
      Positive := res.2.1.pos
      Neutral := res.2.1.neu
      Negative := res.2.1.neg })

/-- app.py line 216: `sum(1 for r in results if r['Sentiment'] == 'Positive')`. -/
def positive_count (results : List BatchRow) : Nat :=
  results.countP (fun r => r.Sentiment == "Positive")

/-- app.py line 217: `sum(1 for r in results if r['Sentiment'] == 'Negative')`. -/
def negative_count (results : List BatchRow) : Nat :=
  results.countP (fun r => r.Sentiment == "Negative")

/-- app.py line 218: `sum(1 for r in results if r['Sentiment'] == 'Neutral')`. -/
def neutral_count (results : List BatchRow) : Nat :=
  results.countP (fun r => r.Sentiment == "Neutral")

/-- C3: over any sequence of classified records the three per-label counts
sum exactly to the length of the sequence, and on the empty sequence all
three counts are zero. -/
theorem counts_sum_to_length :
    (∀ (a : String → Scores) (hs : List String),
      positive_count (batch_results a hs) + negative_count (batch_results a hs) +
        neutral_count (batch_results a hs) = hs.length) ∧
    positive_count [] = 0 ∧ negative_count [] = 0 ∧ neutral_count [] = 0 := by
  refine ⟨?_, rfl, rfl, rfl⟩
  intro a hs
  induction hs with
  | nil => rfl
  | cons h tl ih =>
      have hrow : batch_results a (h :: tl) =
          { Headline := h, Sentiment := (get_sentiment a h).1,
            Emoji := (get_sentiment a h).2.2.1,
            Compound := (get_sentiment a h).2.1.compound,
            Positive := (get_sentiment a h).2.1.pos,
            Neutral := (get_sentiment a h).2.1.neu,
            Negative := (get_sentiment a h).2.1.neg } :: batch_results a tl := rfl
      rcases get_sentiment_label_cases a h with hl | hl | hl <;>
      · simp only [hrow, positive_count, negative_count, neutral_count,
          List.countP_cons, hl]
        simp only [positive_count, negative_count, neutral_count] at ih
        simp only [List.length_cons]
        simp
        omega

/-- C4: the per-label aggregation is order-independent: permuting the
sequence of classified records leaves all three counts unchanged. -/
theorem counts_perm_invariant (r₁ r₂ : List BatchRow) (hp : r₁.Perm r₂) :
    positive_count r₁ = positive_count r₂ ∧
    negative_count r₁ = negative_count r₂ ∧
    neutral_count r₁ = neutral_count r₂ :=
  ⟨hp.countP_eq _, hp.countP_eq _, hp.countP_eq _⟩

/-- A sample results row used to instantiate the permutation theorem. -/
def rowA : BatchRow :=
  { Headline := "a", Sentiment := "Positive", Emoji := "😊", Compound := 6/10,
    Positive := 1, Neutral := 0, Negative := 0 }

/-- A second sample results row used to instantiate the permutation theorem. -/
def rowB : BatchRow :=
  { Headline := "b", Sentiment := "Negative", Emoji := "😟", Compound := -7/10,
    Positive := 0, Neutral := 0, Negative := 1 }

theorem counts_perm_invariant_witness :
    positive_count [rowA, rowB] = positive_count [rowB, rowA] ∧
    negative_count [rowA, rowB] = negative_count [rowB, rowA] ∧
    neutral_count [rowA, rowB] = neutral_count [rowB, rowA] :=
  counts_perm_invariant [rowA, rowB] [rowB, rowA] (List.Perm.swap rowB rowA [])

/-- A record of the analysis history list (the dict appended at app.py
lines 125-130, 198-203 and 302-307). -/
structure AnalysisRecord where
  headline : String
  sentiment : String
  compound : ℚ
  timestamp : String
deriving DecidableEq

/-- Python `st.session_state.analysis_history.append(record)`: list append
at the end. -/
def history_append (history : List AnalysisRecord) (r : AnalysisRecord) :
    List AnalysisRecord :=
  history ++ [r]

/-- app.py line 100: `st.session_state.analysis_history = []` (the Clear
History button). -/
def clear_history (_history : List AnalysisRecord) : List AnalysisRecord :=
  []

/-- C7: the history is append-only with FIFO order: appending adds exactly
one record at the end, leaves every previously stored record unchanged in
place (the old history is the prefix of the new one), never deduplicates or
truncates, and the clear operation empties the history. -/
theorem history_append_only (h : List AnalysisRecord) (r : AnalysisRecord) :
    history_append h r = h ++ [r] ∧
    (history_append h r).take h.length = h ∧
    (history_append h r)[h.length]? = some r ∧
    (history_append h r).length = h.length + 1 ∧
    clear_history (history_append h r) = [] := by
  refine ⟨rfl, ?_, ?_, ?_, rfl⟩
  · exact List.take_left h [r]
  · exact List.getElem?_concat_length h r
  · simp [history_append]

/-- The history record built from one `get_sentiment` call (the dict
literal appended at app.py lines 125-130, repeated verbatim at 198-203 and
302-307): `headline`, `sentiment` and `compound` all come from the same
call; `datetime.now()` is passed in as `ts`. -/
def mkRecord (analyzer : String → Scores) (ts : String) (headline : String) :
    AnalysisRecord :=
  let res := get_sentiment analyzer headline
  { headline := headline, sentiment := res.1, compound := res.2.1.compound,
    timestamp := ts }

/-- Records appended by the Single Headline mode (app.py lines 120-130):
`if analyze_btn and headline:` guards the whole analysis block, and Python
string truthiness is nonemptiness. -/
def single_submit (analyzer : String → Scores) (ts : String)
    (analyze_btn : Bool) (headline : String) : List AnalysisRecord :=
  if analyze_btn && (headline != "") then [mkRecord analyzer ts headline]
  else []

/-- Outcome of one Batch Analysis submission: the records appended to the
history, and whether `st.warning` was shown. -/
structure BatchOutcome where
  new_records : List AnalysisRecord
  warned : Bool
deriving DecidableEq

/-- Embedding of the Batch Analysis submit handler (app.py lines 176-262):
`if batch_input:` analyzes, `else: st.warning(...)`; inside, the analysis
loop runs only under `if headlines:`, which has no else branch (a
whitespace-only input falls through silently). -/
def batch_submit (analyzer : String → Scores) (ts : String)
    (batch_input : String) : BatchOutcome :=
  if batch_input != "" then
    if batch_headlines batch_input != [] then
      { new_records := (batch_headlines batch_input).map (mkRecord analyzer ts),
        warned := false }
    else
      { new_records := [], warned := false }
  else
    { new_records := [], warned := true }

/-- Records appended by the Live RSS Feed mode loop (app.py lines 292-307),
one per fetched headline. -/
def rss_submit (analyzer : String → Scores) (ts : String)
    (fetched : List String) : List AnalysisRecord :=
  fetched.map (mkRecord analyzer ts)

/-- An `<item>` element of the parsed feed: its `<title>` text, when the
item has a title tag. -/
structure RssItem where
  title : Option String

/-- Embedding of `fetch_headlines_from_rss` (app.py lines 26-41).  The
HTTP request (`requests.get`, `raise_for_status`) and the XML parse are
external effects for the given URL; their combined outcome is the
`fetch_result` parameter: `Except.ok` carries the parsed items,
`Except.error` the message of whatever exception was raised.  Returns the
headline list together with the `st.error` message, if one was shown. -/
def fetch_headlines_from_rss (fetch_result : Except String (List RssItem))
    (max_items : Nat) : List String × Option String :=
  match fetch_result with
  | Except.ok items =>
      ((items.take max_items).filterMap (fun it => it.title.map py_strip), none)
  | Except.error e => ([], some ("RSS fetch failed: " ++ e))

/-- C6: whenever the feed fetch fails for any reason, the failure is caught
at the fetch boundary: the operation returns normally with an empty
headline list and a surfaced error message, for every failure message and
every max-item bound. -/
theorem fetch_failure_returns_empty (e : String) (max_items : Nat) :
    fetch_headlines_from_rss (Except.error e) max_items =
      ([], some ("RSS fetch failed: " ++ e)) :=
  rfl

theorem fetch_failure_returns_empty_witness :
    fetch_headlines_from_rss (Except.error "timeout") 50 =
      ([], some "RSS fetch failed: timeout") :=
  fetch_failure_returns_empty "timeout" 50

/-- C8 counterexample: the whitespace-only input `" "` submitted for
analysis refutes the claim at a concrete input: in Single Headline mode it
is analyzed and a record IS created (the guard only tests nonemptiness,
not blankness), and in Batch Analysis mode no warning is reported (the
`st.warning` branch requires the raw input to be empty, while a blank
input falls through the elseless `if headlines:`). -/
theorem blank_input_counterexample :
    (single_submit (constAnalyzer 0) "ts" true " ").length = 1 ∧
    (batch_submit (constAnalyzer 0) "ts" " ").new_records = [] ∧
    (batch_submit (constAnalyzer 0) "ts" " ").warned = false := by
  refine ⟨rfl, ?_, rfl⟩
  rfl

/-- C8 (amended): an empty batch input yields a warning and no record; a
whitespace-only batch input yields no record but also no warning; in
Single Headline mode an empty input yields no record and no warning, while
a whitespace-only input is analyzed and appends exactly one record; no
path raises a fatal error (all submit handlers are total functions). -/
theorem blank_input_behavior :
    (∀ (a : String → Scores) (ts : String),
      (batch_submit a ts "").new_records = [] ∧
      (batch_submit a ts "").warned = true) ∧
    (∀ (a : String → Scores) (ts s : String), s ≠ "" → batch_headlines s = [] →
      (batch_submit a ts s).new_records = [] ∧
      (batch_submit a ts s).warned = false) ∧
    (∀ (a : String → Scores) (ts : String) (b : Bool),
      single_submit a ts b "" = []) ∧
    (∀ (a : String → Scores) (ts : String),
      (single_submit a ts true " ").length = 1) := by
  refine ⟨?_, ?_, ?_, ?_⟩
  · intro a ts
    exact ⟨rfl, rfl⟩
  · intro a ts s hs hempty
    constructor <;> simp [batch_submit, hs, hempty]
  · intro a ts b
    simp [single_submit]
  · intro a ts
    simp [single_submit]

theorem blank_input_behavior_witness :
    (batch_submit (constAnalyzer 0) "t2" " ").new_records = [] ∧
    (batch_submit (constAnalyzer 0) "t2" " ").warned = false :=
  blank_input_behavior.2.1 (constAnalyzer 0) "t2" " " (by decide) rfl

/-- Outcome of a percentage-metrics block: `skipped` when the guarding
conditional was false and the block never ran, `shown` with the three
displayed percentages, `fault` when a ZeroDivisionError was raised. -/
inductive MetricsOutcome where
  | skipped : MetricsOutcome
  | shown : ℚ → ℚ → ℚ → MetricsOutcome
  | fault : MetricsOutcome
deriving DecidableEq

/-- Python float division, which raises ZeroDivisionError on a zero
denominator; the raised exception is modelled as `none`. -/
def py_div (a b : ℚ) : Option ℚ :=
  if b = 0 then none else some (a / b)

/-- Embedding of the Batch Analysis summary metrics (app.py lines 180-225):
the analysis block runs under `if headlines:`, and inside it each metric
shows `count/len(results)*100`. -/
def batch_metrics (analyzer : String → Scores) (headlines : List String) :
    MetricsOutcome :=
  if headlines != [] then
    match py_div (positive_count (batch_results analyzer headlines))
            ((batch_results analyzer headlines).length),
          py_div (neutral_count (batch_results analyzer headlines))
            ((batch_results analyzer headlines).length),
          py_div (negative_count (batch_results analyzer headlines))
            ((batch_results analyzer headlines).length) with
    | some p, some u, some n => MetricsOutcome.shown (p * 100) (u * 100) (n * 100)
    | _, _, _ => MetricsOutcome.fault
  else MetricsOutcome.skipped

/-- Number of history records with the given sentiment, as the sidebar
computes it (app.py lines 86-88). -/
def history_count (history : List AnalysisRecord) (label : String) : Nat :=
  history.countP (fun item => item.sentiment == label)

/-- Embedding of the sidebar statistics block (app.py lines 84-93): runs
under `if st.session_state.analysis_history:`, then shows
`count/total*100` for each label with `total = len(history)`; the `else`
branch only shows an info banner. -/
def sidebar_stats (history : List AnalysisRecord) : MetricsOutcome :=
  if history != [] then
    match py_div (history_count history "Positive") (history.length),
          py_div (history_count history "Negative") (history.length),
          py_div (history_count history "Neutral") (history.length) with
    | some p, some n, some u => MetricsOutcome.shown (p * 100) (n * 100) (u * 100)
    | _, _, _ => MetricsOutcome.fault
  else MetricsOutcome.skipped

/-- C9 counterexample: on an empty batch the percentage computation does
not divide by zero and does not fault: the guarding `if headlines:` (and
`if st.session_state.analysis_history:` in the sidebar) skips the metrics
block entirely, so the claimed undefined/faulted behavior never occurs. -/
theorem empty_batch_metrics_counterexample :
    batch_metrics (constAnalyzer 0) [] = MetricsOutcome.skipped ∧
    sidebar_stats [] = MetricsOutcome.skipped ∧
    ((MetricsOutcome.skipped = MetricsOutcome.fault) = False) := by
  refine ⟨rfl, rfl, ?_⟩
  simp

/-- C9 (amended): the percentage expressions themselves divide the
per-label counts by the batch count with no zero guard (a zero denominator
would raise ZeroDivisionError), but every metrics block is wrapped in a
nonemptiness conditional, so on an empty batch the block is skipped and
the program never actually divides by zero: no reachable input faults. -/
theorem percentage_division_guarded :
    (∀ x : ℚ, py_div x 0 = none) ∧
    (∀ (a : String → Scores) (hs : List String),
      batch_metrics a hs ≠ MetricsOutcome.fault) ∧
    (∀ a : String → Scores, batch_metrics a [] = MetricsOutcome.skipped) ∧
    (∀ h : List AnalysisRecord, sidebar_stats h ≠ MetricsOutcome.fault) ∧
    sidebar_stats [] = MetricsOutcome.skipped := by
  refine ⟨?_, ?_, ?_, ?_, rfl⟩
  · intro x
    simp [py_div]
  · intro a hs
    by_cases hn : hs = []
    · subst hn
      simp [batch_metrics]
    · have hlen : ¬(((batch_results a hs).length : ℚ) = 0) := by
        simp only [batch_results, List.length_map, Nat.cast_eq_zero,
          List.length_eq_zero]
        exact hn
      simp only [batch_metrics, py_div, if_neg hlen, bne_iff_ne, ne_eq, hn,
        not_false_iff, if_true]
      simp
  · intro a
    rfl
  · intro h
    by_cases hn : h = []
    · subst hn
      simp [sidebar_stats]
    · have hlen : ¬((h.length : ℚ) = 0) := by
        simp only [Nat.cast_eq_zero, List.length_eq_zero]
        exact hn
      simp only [sidebar_stats, py_div, if_neg hlen, bne_iff_ne, ne_eq, hn,
        not_false_iff, if_true]
      simp

theorem percentage_division_guarded_witness :
    py_div 7 0 = none :=
  percentage_division_guarded.1 7

lemma mkRecord_sentiment (a : String → Scores) (ts h : String) :
    (mkRecord a ts h).sentiment = (get_sentiment a h).1 :=
  rfl

lemma mkRecord_compound (a : String → Scores) (ts h : String) :
    (mkRecord a ts h).compound = (a h).compound := by
  have hs := get_sentiment_scores a h
  simp only [mkRecord]
  rw [hs]

lemma mkRecord_label_iff (a : String → Scores) (ts h : String) :
    ((mkRecord a ts h).sentiment = "Positive" ↔
      (mkRecord a ts h).compound ≥ 5/100) ∧
    ((mkRecord a ts h).sentiment = "Negative" ↔
      (mkRecord a ts h).compound ≤ -5/100) ∧
    ((mkRecord a ts h).sentiment = "Neutral" ↔
      ¬((mkRecord a ts h).compound ≥ 5/100) ∧
      ¬((mkRecord a ts h).compound ≤ -5/100)) := by
  rw [mkRecord_sentiment, mkRecord_compound]
  exact get_sentiment_label_iff a h

/-- C10: every record ever appended to the analysis history, whether it
came from the Single Headline, Batch Analysis or Live RSS Feed mode,
stores a sentiment label that is exactly the threshold classification of
its own stored compound score, because label and compound are taken from
the same `get_sentiment` call on the same headline. -/
theorem history_record_label_consistent (a : String → Scores)
    (ts₁ ts₂ ts₃ headline input : String) (btn : Bool)
    (fetched : List String) (rec : AnalysisRecord)
    (hmem : rec ∈ single_submit a ts₁ btn headline ∨
            rec ∈ (batch_submit a ts₂ input).new_records ∨
            rec ∈ rss_submit a ts₃ fetched) :
    (rec.sentiment = "Positive" ↔ rec.compound ≥ 5/100) ∧
    (rec.sentiment = "Negative" ↔ rec.compound ≤ -5/100) ∧
    (rec.sentiment = "Neutral" ↔
      ¬(rec.compound ≥ 5/100) ∧ ¬(rec.compound ≤ -5/100)) := by
  have hres : ∃ h : String,
      rec = mkRecord a ts₁ h ∨ rec = mkRecord a ts₂ h ∨
        rec = mkRecord a ts₃ h := by
    rcases hmem with hm | hm | hm
    · simp only [single_submit] at hm
      split_ifs at hm
      · rw [List.mem_singleton] at hm
        exact ⟨headline, Or.inl hm⟩
      · exact absurd hm (List.not_mem_nil rec)
    · simp only [batch_submit] at hm
      split_ifs at hm <;>
        first
          | (rw [List.mem_map] at hm
             obtain ⟨h, _, hh⟩ := hm
             exact ⟨h, Or.inr (Or.inl hh.symm)⟩)
          | exact absurd hm (List.not_mem_nil rec)
    · simp only [rss_submit, List.mem_map] at hm
      obtain ⟨h, _, hh⟩ := hm
      exact ⟨h, Or.inr (Or.inr hh.symm)⟩
  obtain ⟨h, hr | hr | hr⟩ := hres <;>
  · subst hr
    exact mkRecord_label_iff a _ h

theorem history_record_label_consistent_witness :
    ((mkRecord (constAnalyzer (6/10)) "t" "hi").sentiment = "Positive" ↔
      (mkRecord (constAnalyzer (6/10)) "t" "hi").compound ≥ 5/100) ∧
    ((mkRecord (constAnalyzer (6/10)) "t" "hi").sentiment = "Negative" ↔
      (mkRecord (constAnalyzer (6/10)) "t" "hi").compound ≤ -5/100) ∧
    ((mkRecord (constAnalyzer (6/10)) "t" "hi").sentiment = "Neutral" ↔
      ¬((mkRecord (constAnalyzer (6/10)) "t" "hi").compound ≥ 5/100) ∧
      ¬((mkRecord (constAnalyzer (6/10)) "t" "hi").compound ≤ -5/100)) :=
  history_record_label_consistent (constAnalyzer (6/10)) "t" "t" "t" "hi" ""
    true [] (mkRecord (constAnalyzer (6/10)) "t" "hi")
    (Or.inl (by simp [single_submit]))
